import Mathlib

/-!
Verification of the learning-curve plotting, shutdown handshake and CLI logic of
`examples/advanced/dxl_reacher.py` (SenseAct DXL reacher example script).

The script couples a trainer process to a plotting process through a shared record
(an advisory write-lock flag plus two parallel lists of episodic returns and episodic
lengths) and a shared plot-running flag.  The definitions below are a shallow
embedding of that code: Python floats are modelled by rationals, numpy integer
arrays by lists of naturals, and exceptions raised by numpy reductions by
`Except String`.
-/

namespace DxlReacher

/-- Shared training record: the manager dictionary created in `main`
(`write_lock`, `episodic_returns`, `episodic_lengths`). -/
structure SharedReturns where
  write_lock : Bool
  episodic_returns : List ℚ
  episodic_lengths : List ℕ
deriving DecidableEq

/-- Source constant `window_size_steps = 5000` (sliding-window width in steps). -/
def window_size_steps : ℕ := 5000

/-- Source constant `x_tick = 1000` (sample stride in steps). -/
def x_tick : ℕ := 1000

/-- Model of `np.arange(start, stop, step)` for a positive `step` on naturals:
the elements `start + i * step` while strictly below `stop`. -/
def npArange (start stop step : ℕ) : List ℕ :=
  (List.range ((stop - start + (step - 1)) / step)).map (fun i => start + i * step)

/-- Helper for `cumsum`: running sums with accumulator. -/
def cumsumAux (acc : ℕ) : List ℕ → List ℕ
  | [] => []
  | x :: xs => (acc + x) :: cumsumAux (acc + x) xs

/-- Model of `np.cumsum` on a one-dimensional integer array. -/
def cumsum (l : List ℕ) : List ℕ := cumsumAux 0 l

/-- The episode-length array selected by the plotting loop: the shared
`episodic_lengths` when that list is truthy (non-empty), otherwise the fallback
`batch_size * np.arange(len(returns))`. -/
def epLens (batch_size : ℕ) (r : SharedReturns) : List ℕ :=
  if r.episodic_lengths.isEmpty then
    (List.range r.episodic_returns.length).map (fun i => batch_size * i)
  else r.episodic_lengths

/-- The sample axis `steps_show = np.arange(x_tick, cum_episode_lengths[-1] + 1, x_tick)`. -/
def stepsShow (last : ℕ) : List ℕ := npArange x_tick (last + 1) x_tick

/-- The boolean-mask selection
`returns[(cum > max(0, x_tick*(i+1) - window_size_steps)) * (cum < x_tick*(i+1))]`:
returns paired with their cumulative lengths, filtered by the two mask conditions.
The mask multiplication of the source is a logical conjunction. -/
def retsInWindow (returns : List ℚ) (cum : List ℕ) (i : ℕ) : List ℚ :=
  ((returns.zip cum).filter
    (fun rc => decide (max 0 ((x_tick : ℤ) * (i + 1) - (window_size_steps : ℤ)) < (rc.2 : ℤ)) &&
               decide (rc.2 < x_tick * (i + 1)))).map Prod.fst

/-- Window selection as the specification words it: the returns whose cumulative
length lies strictly between `(sample - window)` and `sample`, with no clamping
of the lower bound at zero.  This definition follows the text of the spec, to be
compared with `retsInWindow`, which follows the source. -/
def specWindowSubset (returns : List ℚ) (cum : List ℕ) (i : ℕ) : List ℚ :=
  ((returns.zip cum).filter
    (fun rc => decide ((x_tick : ℤ) * (i + 1) - (window_size_steps : ℤ) < (rc.2 : ℤ)) &&
               decide (rc.2 < x_tick * (i + 1)))).map Prod.fst

/-- Model of `ndarray.any()` on a float array: some element is truthy (non-zero). -/
def anyNonzero (l : List ℚ) : Bool := l.any (fun x => decide (x ≠ 0))

/-- Model of `np.mean` on a non-empty float array. -/
def npMean (l : List ℚ) : ℚ := l.sum / (l.length : ℚ)

/-- The sample indices whose window selection passes the `rets_in_window.any()`
test, in increasing order. -/
def keptIndices (returns : List ℚ) (cum : List ℕ) (numShow : ℕ) : List ℕ :=
  (List.range numShow).filter (fun i => anyNonzero (retsInWindow returns cum i))

/-- The `rets` list built by the plotting loop: for each `i` below
`len(steps_show)`, append `np.mean(rets_in_window)` when `rets_in_window.any()`. -/
def computeRets (returns : List ℚ) (cum : List ℕ) (numShow : ℕ) : List ℚ :=
  (List.range numShow).foldl
    (fun rets i =>
      if anyNonzero (retsInWindow returns cum i) then rets ++ [npMean (retsInWindow returns cum i)]
      else rets)
    []

/-- Model of `np.max` on a float array: an exception on a zero-size array. -/
def npMax (l : List ℚ) : Except String ℚ :=
  match l with
  | [] => Except.error ("zero-size array to reduction operation maximum which has no identity")
  | x :: xs => Except.ok (xs.foldl max x)

/-- Model of `np.min` on a float array: an exception on a zero-size array. -/
def npMin (l : List ℚ) : Except String ℚ :=
  match l with
  | [] => Except.error ("zero-size array to reduction operation minimum which has no identity")
  | x :: xs => Except.ok (xs.foldl min x)

/-- The x-coordinates assigned to the learning-curve line:
`np.arange(1, len(rets) + 1) * x_tick`. -/
def curveXData (rets : List ℚ) : List ℕ :=
  (npArange 1 (rets.length + 1) 1).map (fun v => v * x_tick)

/-- Data written to the learning-curve subplot on a successful redraw:
line x-data and y-data, x-limits and y-limits (with the 0.05 buffer). -/
structure CurveData where
  xdata : List ℕ
  ydata : List ℚ
  xlo : ℕ
  xhi : ℕ
  ylo : ℚ
  yhi : ℚ
deriving DecidableEq

/-- The learning-curve recomputation (source lines 160-185), entered once the
redraw condition holds.  `Except.error` models an uncaught exception: indexing
`cum_episode_lengths[-1]` on an empty array, or `np.max`/`np.min` on the empty
`rets` list.  When the total-steps guard `cum_episode_lengths[-1] >= x_tick`
fails, no curve data is produced (`Except.ok none`). -/
def plotCurveUpdate (batch_size : ℕ) (r : SharedReturns) : Except String (Option CurveData) :=
  let returns := r.episodic_returns
  let cum_episode_lengths := cumsum (epLens batch_size r)
  match cum_episode_lengths.getLast? with
  | none => Except.error ("IndexError: index -1 is out of bounds for axis 0 with size 0")
  | some last =>
    if x_tick ≤ last then
      let rets := computeRets returns cum_episode_lengths (stepsShow last).length
      match npMax rets, npMin rets with
      | Except.ok mx, Except.ok mn =>
        Except.ok (some
          { xdata := curveXData rets
            ydata := rets
            xlo := x_tick
            xhi := rets.length * x_tick
            ylo := mn - |mx - mn| * (1 / 20)
            yhi := mx + |mx - mn| * (1 / 20) })
      | Except.error e, _ => Except.error e
      | _, Except.error e => Except.error e
    else Except.ok none

/-- Plotter-loop state across iterations: the episode count seen at the last
redraw (`old_size`) and the learning-curve data currently on screen. -/
structure PlotState where
  old_size : ℕ
  curve : Option CurveData
deriving DecidableEq

/-- One pass of the learning-curve part of the plotting loop over a snapshot of
the shared record (the deep copy taken at the top of the iteration).  The curve
is recomputed only when the write-lock flag of the snapshot is false and the
snapshot holds strictly more recorded returns than `old_size`; in that case
`old_size` is updated to the new count before the total-steps guard is tested,
so `old_size` advances even when the guard fails and the curve is kept. -/
def plotIteration (batch_size : ℕ) (snap : SharedReturns) (s : PlotState) :
    Except String PlotState :=
  if snap.write_lock = false ∧ s.old_size < snap.episodic_returns.length then
    match plotCurveUpdate batch_size snap with
    | Except.error e => Except.error e
    | Except.ok none => Except.ok { old_size := snap.episodic_returns.length, curve := s.curve }
    | Except.ok (some c) => Except.ok { old_size := snap.episodic_returns.length, curve := some c }
  else Except.ok s

/-- Observable actions of the trainer process (`main`), in program order. -/
inductive TrainerEvent where
  | startEnv : TrainerEvent
  | startPlotter : TrainerEvent
  | runLearn : TrainerEvent
  | setPlotRunning : ℕ → TrainerEvent
  | sleepSeconds : ℕ → TrainerEvent
  | joinPlotter : TrainerEvent
  | closeEnv : TrainerEvent
deriving DecidableEq

/-- The straight-line event trace of `main`: start the environment, start the
plotting process, run the learning routine, then the shutdown sequence
`plot_running.value = 0`, `time.sleep(2)`, `pp.join()`, `env.close()`. -/
def mainTrace : List TrainerEvent :=
  [TrainerEvent.startEnv, TrainerEvent.startPlotter, TrainerEvent.runLearn,
   TrainerEvent.setPlotRunning 0, TrainerEvent.sleepSeconds 2, TrainerEvent.joinPlotter,
   TrainerEvent.closeEnv]

/-- Observable actions of the plotting process: one drawing iteration of the
while-loop body, or the final `fig.savefig` call with its file name and the two
expansion factors of `extent.expanded(1.1, 1.1)` (modelled exactly as 11/10). -/
inductive PlotterEvent where
  | drawIteration : PlotterEvent
  | saveFig : String → ℚ → ℚ → PlotterEvent
deriving DecidableEq

/-- The plotting loop `while plot_running.value:` driven by the successive values
the loop condition reads from the shared flag.  A truthy (non-zero) reading runs
one more iteration; the first zero reading exits the loop and saves the figure
`tag + ".png"` cropped to the second subplot with 1.1 expansion.  If the given
readings never turn zero the loop is still running and nothing is saved. -/
def plotterRun (tag : String) : List ℕ → List PlotterEvent
  | [] => []
  | v :: rest =>
    if v ≠ 0 then PlotterEvent.drawIteration :: plotterRun tag rest
    else [PlotterEvent.saveFig (tag ++ (".png")) (11 / 10) (11 / 10)]

/-- The argument record produced by the argument parser and unpacked into
`main(**args.__dict__)`: `port` (string, default `None`), `id` (int, default 1),
`baud` (int, default 1000000). -/
structure Args where
  port : Option String
  id : ℤ
  baud : ℤ
deriving DecidableEq

/-- Decimal digit value of a character, if any. -/
def digitVal (c : Char) : Option ℕ :=
  if 48 ≤ c.toNat ∧ c.toNat ≤ 57 then some (c.toNat - 48) else none

/-- Accumulating decimal parse of a digit list. -/
def digitsToNatAux (acc : ℕ) : List Char → Option ℕ
  | [] => some acc
  | c :: cs =>
    match digitVal c with
    | some d => digitsToNatAux (acc * 10 + d) cs
    | none => none

/-- Model of the `int` conversion applied by the parser to option values:
an optional leading minus sign followed by at least one decimal digit. -/
def strToInt (s : String) : Option ℤ :=
  match s.data with
  | [] => none
  | c :: cs =>
    if c = ('-') then
      match cs with
      | [] => none
      | _ => (digitsToNatAux 0 cs).map (fun n => -(n : ℤ))
    else (digitsToNatAux 0 (c :: cs)).map (fun n => (n : ℤ))

/-- Whether a token looks like a long option (starts with two dashes);
the parser refuses such tokens as option values. -/
def strStartsWithDashDash (s : String) : Bool :=
  match s.data with
  | c1 :: c2 :: _ => (c1 == ('-')) && (c2 == ('-'))
  | _ => false

/-- The three option strings declared by the three `add_argument` calls. -/
def argFlags : List String := [("--port"), ("--id"), ("--baud")]

/-- Defaults declared by the three `add_argument` calls:
`--port` default `None`, `--id` default 1, `--baud` default 1000000. -/
def defaultArgs : Args := { port := none, id := 1, baud := 1000000 }

/-- Model of `parser.parse_args()` for the parser built in the `__main__` block:
each declared option consumes one following value token; a value that itself
looks like an option, a missing value, a non-integer value for an int option,
and any token that is not one of the three declared options are all parse
errors (`none`).  The automatic argparse help option and option abbreviation
are outside this model. -/
def parseArgsFrom : Args → List String → Option Args
  | a, [] => some a
  | _, [_] => none
  | a, t :: v :: rest =>
    if t = ("--port") then
      if strStartsWithDashDash v then none
      else parseArgsFrom { a with port := some v } rest
    else if t = ("--id") then
      if strStartsWithDashDash v then none
      else
        match strToInt v with
        | some m => parseArgsFrom { a with id := m } rest
        | none => none
    else if t = ("--baud") then
      if strStartsWithDashDash v then none
      else
        match strToInt v with
        | some m => parseArgsFrom { a with baud := m } rest
        | none => none
    else none

/-- Argument parsing starting from the declared defaults. -/
def parseArgs (argv : List String) : Option Args := parseArgsFrom defaultArgs argv

/-- The communicator keyword record built inside `main` from its three
parameters (`idn=id`, `baudrate=baud`, `sensor_dt=0.01`, `device_path=port`,
`use_ctypes_driver=True`). -/
structure CommunicatorConfig where
  idn : ℤ
  baudrate : ℤ
  sensor_dt : ℚ
  device_path : Option String
  use_ctypes_driver : Bool
deriving DecidableEq

/-- How `main` wires its three parameters into the communicator setup. -/
def mainCommunicatorConfig (port : Option String) (idn baud : ℤ) : CommunicatorConfig :=
  { idn := idn, baudrate := baud, sensor_dt := 1 / 100, device_path := port,
    use_ctypes_driver := true }

/-- The `__main__` block: parse the command line, then hand the three parsed
values to `main` (observed here through the communicator record `main` builds
from them). -/
def runScript (argv : List String) : Option CommunicatorConfig :=
  (parseArgs argv).map (fun a => mainCommunicatorConfig a.port a.id a.baud)

/-! ## Helper lemmas -/

/-- A conditional-append fold equals mapping over the filtered list. -/
theorem foldl_append_filter {α : Type} {β : Type} (p : α → Bool) (f : α → β) :
    ∀ (l : List α) (acc : List β),
      l.foldl (fun r x => if p x then r ++ [f x] else r) acc = acc ++ (l.filter p).map f := by
  intro l
  induction l with
  | nil => intro acc; simp
  | cons x xs ih =>
    intro acc
    cases hx : p x <;> simp [List.foldl_cons, hx, List.filter_cons, ih]

/-- The `rets` loop is the list of window means over the kept sample indices. -/
theorem computeRets_eq (returns : List ℚ) (cum : List ℕ) (numShow : ℕ) :
    computeRets returns cum numShow =
      (keptIndices returns cum numShow).map (fun i => npMean (retsInWindow returns cum i)) := by
  have h := foldl_append_filter (fun i => anyNonzero (retsInWindow returns cum i))
      (fun i => npMean (retsInWindow returns cum i)) (List.range numShow) []
  simpa [computeRets, keptIndices] using h

/-- Position counting in a filtered range: the element at position `k` of
`(range n).filter p` has exactly `k` predecessors satisfying `p`. -/
theorem filter_range_count (p : ℕ → Bool) :
    ∀ (n k : ℕ) (hk : k < ((List.range n).filter p).length),
      ((List.range (((List.range n).filter p).get ⟨k, hk⟩)).filter p).length = k := by
  intro n
  induction n with
  | zero => intro k hk; simp [List.range_zero] at hk
  | succ n ih =>
    intro k hk
    have hsplit : (List.range (n + 1)).filter p = (List.range n).filter p ++ [n].filter p := by
      rw [List.range_succ, List.filter_append]
    rcases Nat.lt_or_ge k ((List.range n).filter p).length with hlt | hge
    · have hget : ((List.range (n + 1)).filter p).get ⟨k, hk⟩ =
          ((List.range n).filter p).get ⟨k, hlt⟩ := by
        simp only [List.get_eq_getElem, hsplit]
        exact List.getElem_append_left hlt
      rw [hget]
      exact ih k hlt
    · cases hp : p n with
      | false =>
        exfalso
        have hfil : [n].filter p = [] := by simp [List.filter_cons, hp]
        have : ((List.range (n + 1)).filter p).length = ((List.range n).filter p).length := by
          rw [hsplit, List.length_append, hfil]
          simp
        omega
      | true =>
        have hfil : [n].filter p = [n] := by simp [List.filter_cons, hp]
        have hlen : ((List.range (n + 1)).filter p).length =
            ((List.range n).filter p).length + 1 := by
          rw [hsplit, List.length_append, hfil]
          simp
        have hkeq : k = ((List.range n).filter p).length := by omega
        have hget : ((List.range (n + 1)).filter p).get ⟨k, hk⟩ = n := by
          simp only [List.get_eq_getElem, hsplit]
          rw [List.getElem_append_right (by omega)]
          simp [hfil, hkeq]
        rw [hget, hkeq]

/-! ## Claim theorems -/

/-- C2: end-to-end scenario: for returns `[1, 2, 3]` and lengths
`[1000, 1000, 1000]` the cumulative lengths are `[1000, 2000, 3000]`, the sample
axis is `[1000, 2000, 3000]`, the window at sample 1000 is empty (boundary
exclusive, so the point is skipped), the window at sample 2000 holds the return
at cumulative length 1000 with average 1, the window at sample 3000 holds the
returns at cumulative lengths 1000 and 2000 with average 3/2, and the plotted
averages are `[1, 3/2]`. -/
theorem c2_end_to_end :
    cumsum (epLens 2048 ⟨false, [1, 2, 3], [1000, 1000, 1000]⟩) = [1000, 2000, 3000] ∧
    stepsShow 3000 = [1000, 2000, 3000] ∧
    retsInWindow [1, 2, 3] [1000, 2000, 3000] 0 = [] ∧
    retsInWindow [1, 2, 3] [1000, 2000, 3000] 1 = [1] ∧
    npMean (retsInWindow [1, 2, 3] [1000, 2000, 3000] 1) = 1 ∧
    retsInWindow [1, 2, 3] [1000, 2000, 3000] 2 = [1, 2] ∧
    npMean (retsInWindow [1, 2, 3] [1000, 2000, 3000] 2) = 3 / 2 ∧
    keptIndices [1, 2, 3] [1000, 2000, 3000] (stepsShow 3000).length = [1, 2] ∧
    computeRets [1, 2, 3] [1000, 2000, 3000] (stepsShow 3000).length = [1, 3 / 2] := by
  have h1 : retsInWindow [1, 2, 3] [1000, 2000, 3000] 1 = [1] := by decide
  have h2 : retsInWindow [1, 2, 3] [1000, 2000, 3000] 2 = [1, 2] := by decide
  have hm1 : npMean [(1 : ℚ)] = 1 := by norm_num [npMean]
  have hm2 : npMean [(1 : ℚ), 2] = 3 / 2 := by norm_num [npMean]
  refine ⟨by decide, by decide, by decide, h1, ?_, h2, ?_, by decide, ?_⟩
  · rw [h1]; exact hm1
  · rw [h2]; exact hm2
  · rw [computeRets_eq]
    have hk : keptIndices [1, 2, 3] [1000, 2000, 3000] (stepsShow 3000).length = [1, 2] := by
      decide
    rw [hk]
    simp [h1, h2, hm1, hm2]

/-- C3: with sample stride 1000 and last cumulative length `last` at least one
stride, the computed sample axis is exactly the consecutive multiples of 1000 up
to `(last / 1000) * 1000`. -/
theorem c3_sample_axis (last : ℕ) (h : x_tick ≤ last) :
    stepsShow last = (List.range (last / 1000)).map (fun k => (k + 1) * 1000) := by
  unfold stepsShow npArange
  simp only [x_tick] at h ⊢
  have h1 : (last + 1 - 1000 + (1000 - 1)) / 1000 = last / 1000 := by omega
  rw [h1]
  have h2 : (fun i : ℕ => 1000 + i * 1000) = (fun k : ℕ => (k + 1) * 1000) := by
    funext i; ring
  rw [h2]

/-- C3 witness at `last = 3500`. -/
theorem c3_sample_axis_witness :
    stepsShow 3500 = (List.range (3500 / 1000)).map (fun k => (k + 1) * 1000) :=
  c3_sample_axis 3500 (by decide)

/-- C4: when the shared episodic-lengths list is empty and at least one return
has been recorded, the fallback step sequence is `batch_size * [0, 1, ..., n-1]`
and its cumulative sum starts at 0. -/
theorem c4_fallback (bs : ℕ) (r : SharedReturns) (h : r.episodic_lengths = [])
    (hn : 0 < r.episodic_returns.length) :
    epLens bs r = (List.range r.episodic_returns.length).map (fun i => bs * i) ∧
    (cumsum (epLens bs r)).head? = some 0 := by
  have h1 : epLens bs r = (List.range r.episodic_returns.length).map (fun i => bs * i) := by
    simp [epLens, h]
  refine ⟨h1, ?_⟩
  obtain ⟨m, hm⟩ : ∃ m, r.episodic_returns.length = m + 1 :=
    ⟨r.episodic_returns.length - 1, by omega⟩
  rw [h1, hm, List.range_succ_eq_map]
  simp [cumsum, cumsumAux]

/-- C4 witness: one recorded return, empty lengths, batch size 2048. -/
theorem c4_fallback_witness :
    epLens 2048 ⟨false, [7], []⟩ =
      (List.range ([(7 : ℚ)].length)).map (fun i => 2048 * i) ∧
    (cumsum (epLens 2048 ⟨false, [7], []⟩)).head? = some 0 :=
  c4_fallback 2048 ⟨false, [7], []⟩ rfl (by decide)

/-- C5: in the trainer trace the shutdown order is exactly: set the plot-running
flag to 0 (position 3), sleep 2 seconds (position 4), join the plotter
(position 5), close the environment (position 6); each occurs exactly once, so
the join never precedes the sleep, which never precedes clearing the flag. -/
theorem c5_shutdown_order :
    mainTrace.length = 7 ∧
    mainTrace.indexOf (TrainerEvent.setPlotRunning 0) = 3 ∧
    mainTrace.indexOf (TrainerEvent.sleepSeconds 2) = 4 ∧
    mainTrace.indexOf TrainerEvent.joinPlotter = 5 ∧
    mainTrace.indexOf TrainerEvent.closeEnv = 6 ∧
    mainTrace.count (TrainerEvent.setPlotRunning 0) = 1 ∧
    mainTrace.count (TrainerEvent.sleepSeconds 2) = 1 ∧
    mainTrace.count TrainerEvent.joinPlotter = 1 ∧
    mainTrace.count TrainerEvent.closeEnv = 1 := by
  decide

/-- C1 counterexample: with returns `[5, 1]` and an empty episodic-lengths list,
the fallback time axis is `2048 * [0, 1]`, so the first cumulative length is 0.
At sample point 1000, the window of the source (lower bound clamped at
`max(0, 1000 - 5000) = 0`, exclusive) is empty, while the subset described by
the claim (cumulative length strictly between `1000 - 5000 = -4000` and 1000)
holds the first return 5.  The two selections differ, refuting the claim as
stated. -/
theorem c1_counterexample :
    retsInWindow [5, 1] (cumsum (epLens 2048 ⟨false, [5, 1], []⟩)) 0 = [] ∧
    specWindowSubset [5, 1] (cumsum (epLens 2048 ⟨false, [5, 1], []⟩)) 0 = [5] ∧
    retsInWindow [5, 1] (cumsum (epLens 2048 ⟨false, [5, 1], []⟩)) 0 ≠
      specWindowSubset [5, 1] (cumsum (epLens 2048 ⟨false, [5, 1], []⟩)) 0 := by
  refine ⟨by decide, by decide, by decide⟩

/-- C1 (amended): at sample point `s = x_tick * (i + 1)`, the window selection
holds exactly the recorded returns whose cumulative episode length lies strictly
between `max(0, s - 5000)` and `s`; the value plotted for a kept sample point is
the mean over exactly that selection; and a sample point whose selection is
empty is skipped (it contributes no entry to the plotted list, so neither NaN
nor zero). -/
theorem c1_window_rule (returns : List ℚ) (cum : List ℕ) (i : ℕ) :
    (∀ r : ℚ, r ∈ retsInWindow returns cum i ↔
      ∃ c : ℕ, (r, c) ∈ returns.zip cum ∧
        max 0 ((x_tick : ℤ) * (i + 1) - (window_size_steps : ℤ)) < (c : ℤ) ∧
        c < x_tick * (i + 1)) ∧
    (∀ n : ℕ, computeRets returns cum n =
      (keptIndices returns cum n).map (fun j => npMean (retsInWindow returns cum j))) ∧
    (retsInWindow returns cum i = [] → ∀ n : ℕ, i ∉ keptIndices returns cum n) := by
  refine ⟨?_, fun n => computeRets_eq returns cum n, ?_⟩
  · intro r
    constructor
    · intro hr
      simp only [retsInWindow, List.mem_map, List.mem_filter] at hr
      obtain ⟨⟨a, c⟩, ⟨hmem, hcond⟩, hfst⟩ := hr
      simp only [Bool.and_eq_true, decide_eq_true_eq] at hcond
      obtain rfl : a = r := hfst
      exact ⟨c, hmem, hcond.1, hcond.2⟩
    · rintro ⟨c, hmem, hb1, hb2⟩
      simp only [retsInWindow, List.mem_map, List.mem_filter]
      refine ⟨(r, c), ⟨hmem, ?_⟩, rfl⟩
      simp only [Bool.and_eq_true, decide_eq_true_eq]
      exact ⟨hb1, hb2⟩
  · intro hempty n hmem
    simp only [keptIndices, List.mem_filter] at hmem
    rw [hempty] at hmem
    simp [anyNonzero] at hmem

/-- C1 witness: with one return at cumulative length 1000, sample point 1000 has
an empty window (upper boundary exclusive) and is skipped. -/
theorem c1_window_rule_witness : (0 : ℕ) ∉ keptIndices [(3 : ℚ)] [1000] 1 :=
  (c1_window_rule [(3 : ℚ)] [1000] 0).2.2 (by decide) 1

/-- C6: in one pass of the plotting loop over the snapshot of the shared record,
the learning curve is recomputed only when the write-lock flag of the snapshot
is false and the snapshot holds strictly more recorded returns than the count
seen at the last redraw; in every other case the plotter state (including the
curve data) is left unchanged.  When the condition holds, the result is exactly
the recomputation on the snapshot, with the seen count advanced. -/
theorem c6_redraw_guard (bs : ℕ) (snap : SharedReturns) (s : PlotState) :
    (¬(snap.write_lock = false ∧ s.old_size < snap.episodic_returns.length) →
      plotIteration bs snap s = Except.ok s) ∧
    (snap.write_lock = false ∧ s.old_size < snap.episodic_returns.length →
      plotIteration bs snap s =
        (plotCurveUpdate bs snap).map
          (fun co => { old_size := snap.episodic_returns.length,
                       curve := co.elim s.curve some })) := by
  constructor
  · intro h
    simp [plotIteration, h]
  · intro h
    simp only [plotIteration, if_pos h]
    cases hcu : plotCurveUpdate bs snap with
    | error e => simp [Except.map]
    | ok co => cases co <;> simp [Except.map, Option.elim]

/-- C6 witness: with the write-lock set, the iteration leaves the state alone. -/
theorem c6_redraw_guard_witness :
    plotIteration 2048 ⟨true, [1], []⟩ ⟨0, none⟩ = Except.ok ⟨0, none⟩ :=
  (c6_redraw_guard 2048 ⟨true, [1], []⟩ ⟨0, none⟩).1 (by decide)

/-- C7: once the plot-running flag reads as falsy, the plotting loop exits after
its drawing iterations and emits exactly one save of the file
`tag + ".png"` with the bounding box expanded by the factor 1.1 in each
dimension: the event list is the drawing iterations for the truthy readings
followed by the single save event. -/
theorem c7_save_on_exit (tag : String) :
    ∀ (readings : List ℕ), 0 ∈ readings →
      plotterRun tag readings =
        List.replicate ((readings.takeWhile (fun v => decide (v ≠ 0))).length)
            PlotterEvent.drawIteration ++
          [PlotterEvent.saveFig (tag ++ (".png")) (11 / 10) (11 / 10)] := by
  intro readings
  induction readings with
  | nil => intro h; simp at h
  | cons v rest ih =>
    intro h
    by_cases hv : v = 0
    · subst hv
      simp [plotterRun, List.takeWhile_cons]
    · have hmem : 0 ∈ rest := by
        rcases List.mem_cons.mp h with h0 | h0
        · exact absurd h0.symm hv
        · exact h0
      simp [plotterRun, hv, List.takeWhile_cons, ih hmem, List.replicate_succ]

/-- C7 witness: two truthy readings then a zero reading give two drawing
iterations and one save event. -/
theorem c7_save_on_exit_witness :
    plotterRun ("t") [1, 1, 0] =
      List.replicate ((([1, 1, 0] : List ℕ).takeWhile (fun v => decide (v ≠ 0))).length)
          PlotterEvent.drawIteration ++
        [PlotterEvent.saveFig (("t") ++ (".png")) (11 / 10) (11 / 10)] :=
  c7_save_on_exit ("t") [1, 1, 0] (by decide)

/-- When every sample window fails the truthiness test, the `rets` list is empty
and the recomputation raises the zero-size reduction error of `np.max`. -/
theorem plotCurveUpdate_empty_rets (bs : ℕ) (r : SharedReturns) (last : ℕ)
    (h3 : (cumsum (epLens bs r)).getLast? = some last)
    (h4 : x_tick ≤ last)
    (h5 : keptIndices r.episodic_returns (cumsum (epLens bs r)) (stepsShow last).length = []) :
    plotCurveUpdate bs r =
      Except.error ("zero-size array to reduction operation maximum which has no identity") := by
  have hrets : computeRets r.episodic_returns (cumsum (epLens bs r)) (stepsShow last).length
      = [] := by
    rw [computeRets_eq, h5]
    rfl
  simp only [plotCurveUpdate]
  rw [h3]
  simp only [if_pos h4, hrets]
  rfl

/-- C9: a snapshot that triggers a redraw (write-lock false, new returns
recorded) and passes the total-steps guard, but whose every sample window is
filtered out by the truthiness test `rets_in_window.any()`, makes the plotter
raise: `rets` is empty and `np.max` of it is an error.  In particular this
happens when all recorded returns equal 0, since retention is decided by
truthiness of the selected values rather than non-emptiness of the selection. -/
theorem c9_empty_rets_crash (bs : ℕ) (r : SharedReturns) (s : PlotState) (last : ℕ)
    (h1 : r.write_lock = false)
    (h2 : s.old_size < r.episodic_returns.length)
    (h3 : (cumsum (epLens bs r)).getLast? = some last)
    (h4 : x_tick ≤ last)
    (h5 : keptIndices r.episodic_returns (cumsum (epLens bs r)) (stepsShow last).length = []) :
    plotIteration bs r s =
      Except.error ("zero-size array to reduction operation maximum which has no identity") := by
  simp only [plotIteration, if_pos (And.intro h1 h2),
    plotCurveUpdate_empty_rets bs r last h3 h4 h5]

/-- C9 witness: all-zero returns `[0, 0]` with lengths `[1000, 1000]` trigger a
redraw, pass the guard (last cumulative length 2000), and crash the plotter. -/
theorem c9_empty_rets_crash_witness :
    plotIteration 2048 ⟨false, [0, 0], [1000, 1000]⟩ ⟨0, none⟩ =
      Except.error ("zero-size array to reduction operation maximum which has no identity") :=
  c9_empty_rets_crash 2048 ⟨false, [0, 0], [1000, 1000]⟩ ⟨0, none⟩ 2000
    (by decide) (by decide) (by decide) (by decide) (by decide)

/-- A successful parse of `flag :: value :: rest` forces the flag to be one of
the three declared options, the value not to look like an option, and the rest
to parse from the updated record. -/
theorem parseArgsFrom_step (a0 a : Args) (u v : String) (rest : List String)
    (h : parseArgsFrom a0 (u :: v :: rest) = some a) :
    u ∈ argFlags ∧ strStartsWithDashDash v = false ∧ ∃ a1, parseArgsFrom a1 rest = some a := by
  simp only [parseArgsFrom] at h
  split at h
  next h1 =>
    split at h
    next hv => simp at h
    next hv => exact ⟨by simp [argFlags, h1], by simpa using hv, ⟨_, h⟩⟩
  next h1 =>
    split at h
    next h2 =>
      split at h
      next hv => simp at h
      next hv =>
        split at h
        next m hm => exact ⟨by simp [argFlags, h2], by simpa using hv, ⟨_, h⟩⟩
        next hm => simp at h
    next h2 =>
      split at h
      next h3 =>
        split at h
        next hv => simp at h
        next hv =>
          split at h
          next m hm => exact ⟨by simp [argFlags, h3], by simpa using hv, ⟨_, h⟩⟩
          next hm => simp at h
      next h3 => simp at h

/-- Every option-looking token of a successfully parsed command line is one of
the three declared flags. -/
theorem parseArgsFrom_flags :
    ∀ (argv : List String) (a0 a : Args), parseArgsFrom a0 argv = some a →
      ∀ t ∈ argv, strStartsWithDashDash t = true → t ∈ argFlags
  | [], _, _, _, t, ht, _ => absurd ht (by simp)
  | [u], a0, a, h, t, ht, hss => by simp [parseArgsFrom] at h
  | u :: v :: rest, a0, a, h, t, ht, hss => by
    obtain ⟨hu, hv, a1, h1⟩ := parseArgsFrom_step a0 a u v rest h
    rcases List.mem_cons.mp ht with rfl | ht2
    · exact hu
    rcases List.mem_cons.mp ht2 with rfl | ht3
    · rw [hss] at hv
      cases hv
    · exact parseArgsFrom_flags rest a1 a h1 t ht3 hss

/-- C8: the command-line interface declares exactly the flags `--port` (string,
default none), `--id` (int, default 1) and `--baud` (int, default 1000000): an
empty command line parses to those defaults, any accepted option-looking token
is one of the three declared flags, and the three parsed values are handed
through to `main` (observed in the communicator record `main` builds). -/
theorem c8_cli :
    parseArgs [] = some { port := none, id := 1, baud := 1000000 } ∧
    (∀ (argv : List String) (a : Args), parseArgs argv = some a →
      ∀ t ∈ argv, strStartsWithDashDash t = true → t ∈ argFlags) ∧
    (∀ (argv : List String) (a : Args), parseArgs argv = some a →
      runScript argv = some { idn := a.id, baudrate := a.baud, sensor_dt := 1 / 100,
                              device_path := a.port, use_ctypes_driver := true }) := by
  refine ⟨rfl, ?_, ?_⟩
  · intro argv a h
    exact parseArgsFrom_flags argv defaultArgs a h
  · intro argv a h
    simp only [runScript]
    rw [h]
    rfl

/-- C8 witness: the command line `--id 7` parses, and its flag is declared. -/
theorem c8_cli_witness : ("--id") ∈ argFlags :=
  c8_cli.2.1 (["--id", "7"]) ⟨none, 7, 1000000⟩ (by decide) ("--id") (by decide) (by decide)

/-- C10: the x-coordinates assigned to the learning-curve line are the
consecutive stride multiples `[1000, 2000, ..., len(rets) * 1000]`, depending
only on how many sample points were kept; consequently, whenever some sample
index `i` was skipped, every kept sample index `j` above `i` (the `k`-th entry
of the kept list) is plotted at the x-position `(k + 1) * 1000`, strictly
smaller than its own sample point `(j + 1) * 1000`. -/
theorem c10_xdata_shift (returns : List ℚ) (cum : List ℕ) (n : ℕ) :
    curveXData (computeRets returns cum n) =
      (List.range ((keptIndices returns cum n).length)).map (fun k => (k + 1) * x_tick) ∧
    (∀ (k i : ℕ) (hk : k < (keptIndices returns cum n).length),
      i < n → i ∉ keptIndices returns cum n →
      i < (keptIndices returns cum n).get ⟨k, hk⟩ →
      (k + 1) * x_tick < ((keptIndices returns cum n).get ⟨k, hk⟩ + 1) * x_tick) := by
  constructor
  · have hlen : (computeRets returns cum n).length = (keptIndices returns cum n).length := by
      rw [computeRets_eq]
      simp
    unfold curveXData npArange
    rw [hlen]
    have harg : ((keptIndices returns cum n).length + 1 - 1 + (1 - 1)) / 1 =
        (keptIndices returns cum n).length := by omega
    rw [harg, List.map_map]
    have hfun : ((fun v => v * x_tick) ∘ (fun i : ℕ => 1 + i * 1)) =
        (fun k : ℕ => (k + 1) * x_tick) := by
      funext i
      simp [Function.comp, Nat.add_comm]
    rw [hfun]
  · intro k i hk hin hnotmem hlt
    have hcount : ((List.range ((keptIndices returns cum n).get ⟨k, hk⟩)).filter
        (fun j => anyNonzero (retsInWindow returns cum j))).length = k :=
      filter_range_count (fun j => anyNonzero (retsInWindow returns cum j)) n k hk
    have hpi : anyNonzero (retsInWindow returns cum i) = false := by
      by_contra hcon
      have hptrue : anyNonzero (retsInWindow returns cum i) = true := by simpa using hcon
      exact hnotmem (List.mem_filter.mpr ⟨List.mem_range.mpr hin, hptrue⟩)
    have hlt2 : ((List.range ((keptIndices returns cum n).get ⟨k, hk⟩)).filter
        (fun j => anyNonzero (retsInWindow returns cum j))).length <
        (List.range ((keptIndices returns cum n).get ⟨k, hk⟩)).length :=
      List.length_filter_lt_length_iff_exists.mpr
        ⟨i, List.mem_range.mpr hlt, by simp [hpi]⟩
    rw [List.length_range, hcount] at hlt2
    unfold x_tick
    omega

/-- C10 witness: with returns `[1, 2]` at cumulative lengths `[1000, 2000]` and
three sample points, sample index 0 is skipped, and the first kept average
(sample index 1, sample point 2000) is plotted at x-position 1000. -/
theorem c10_xdata_shift_witness :
    (0 + 1) * x_tick <
      ((keptIndices [(1 : ℚ), 2] [1000, 2000] 3).get
          ⟨0, (by decide : 0 < (keptIndices [(1 : ℚ), 2] [1000, 2000] 3).length)⟩ + 1) * x_tick :=
  (c10_xdata_shift [(1 : ℚ), 2] [1000, 2000] 3).2 0 0
    (by decide) (by decide) (by decide) (by decide)

end DxlReacher
